import Mathlib

/-!
Verification of the BookClub front-end components: BookCard, BookList,
ErrorBoundary and FloatingImages, shallowly embedded in Lean 4.

The repository ships the source of `ErrorBoundary.jsx`, `Footer.jsx` and
`FloatingImages.jsx`, and the test files of `BookCard` and `BookList`.
The component bodies of `BookCard` and `BookList` are not in the
repository snapshot, so those two components are modelled from the
specification (each such definition says so in its doc comment); the
other components are embedded from their source files.
-/

/-- A book record as described by the data model: `id`, `title`,
`author`, and an optional `cover_image` URL (`null`/absent is `none`). -/
structure Book where
  id : Nat
  title : String
  author : String
  cover_image : Option String
deriving DecidableEq, Repr

/-- A rendered DOM-like node inside a BookCard: plain text, an image
element with `src` and `alt` attributes, or an actionable button with a
label. -/
inductive Node where
  | text (s : String)
  | image (src : String) (alt : String)
  | button (label : String)
deriving DecidableEq, Repr

/-- Modelled from the spec: the `BookCard` component body is not in the
repository snapshot (only `BookCard.test.jsx` is). Per the spec,
BookCard renders the title, a "by {author}" byline, either the cover
image (src = `cover_image`, alt = title) or a placeholder block with the
literal text "No Cover", and always a "View Details" actionable
control. -/
def BookCard.renderNodes (book : Book) : List Node :=
  (match book.cover_image with
    | some url => [Node.image url book.title]
    | none => [Node.text "No Cover"]) ++
  [Node.text book.title,
   Node.text ("by " ++ book.author),
   Node.button "View Details"]

/-- A rendered BookCard instance: the visual nodes together with the
click handler wired to the "View Details" control. -/
structure RenderedCard (σ : Type) where
  nodes : List Node
  onViewDetails : σ → σ

/-- Modelled from the spec: BookCard takes a Book and a selection
callback `onSelect`; the "View Details" control's click handler is the
supplied callback. -/
def BookCard.render {σ : Type} (book : Book) (onSelect : σ → σ) : RenderedCard σ :=
  { nodes := BookCard.renderNodes book, onViewDetails := onSelect }

/-- Dispatching a click on the "View Details" control of a rendered
card runs the card's wired handler, synchronously, on the current
world state. -/
def clickViewDetails {σ : Type} (card : RenderedCard σ) (s : σ) : σ :=
  card.onViewDetails s

/-- Number of image elements among a list of rendered nodes. -/
def countImages (ns : List Node) : Nat :=
  (ns.filter fun n => match n with | Node.image _ _ => true | _ => false).length

/-- Outcome of BookList's single API call per mount: the promise either
resolves with a JSON array of book records or rejects with an error. -/
inductive FetchResult where
  | success (books : List Book)
  | failure (err : String)
deriving DecidableEq, Repr

/-- Modelled from the spec: BookList's implicit fetch state, one of
loading, loaded (non-empty ordered collection), empty, errored. -/
inductive FetchState where
  | loading
  | loaded (books : List Book)
  | empty
  | errored
deriving DecidableEq, Repr

/-- A rendered DOM-like node inside BookList: one BookCard instance
carrying the Book it received, plain text, or an inline error
indication. -/
inductive ListNode where
  | card (book : Book)
  | text (s : String)
  | errorIndication (msg : String)
deriving DecidableEq, Repr

/-- Modelled from the spec: the `BookList` component body is not in the
repository snapshot (only `BookList.test.jsx` is). Per the spec, the
resolution of the one API call drives the state: success with a
non-empty collection goes to `loaded`, success with an empty collection
to `empty`, and a rejected request to the locally handled `errored`
state. -/
def BookList.resolve : FetchResult → FetchState
  | FetchResult.success [] => FetchState.empty
  | FetchResult.success (b :: bs) => FetchState.loaded (b :: bs)
  | FetchResult.failure _ => FetchState.errored

/-- Modelled from the spec: BookList handles the outcome of the API call
entirely locally; a rejected request is recovered into the `errored`
state and is never re-raised into the render tree (`Except.error` would
model an escalated exception, and is never produced). -/
def BookList.handleResult (r : FetchResult) : Except String FetchState :=
  Except.ok (BookList.resolve r)

/-- Modelled from the spec: BookList renders a loading indicator while
pending, one BookCard per record in the order received when loaded, the
literal text "No books found." when empty, and a user-visible inline
error indication when errored. -/
def BookList.render : FetchState → List ListNode
  | FetchState.loading => [ListNode.text "Loading..."]
  | FetchState.loaded books => books.map ListNode.card
  | FetchState.empty => [ListNode.text "No books found."]
  | FetchState.errored => [ListNode.errorIndication "Failed to load books."]

/-- Number of BookCard instances among a list of rendered list nodes. -/
def countCards (ns : List ListNode) : Nat :=
  (ns.filter fun n => match n with | ListNode.card _ => true | _ => false).length

/-- The ErrorBoundary component's state, from the constructor in
`ErrorBoundary.jsx`: `this.state = { hasError: false, error: null }`. -/
structure EBState where
  hasError : Bool
  error : Option String
deriving DecidableEq, Repr

/-- The state installed by the `ErrorBoundary` constructor. -/
def ErrorBoundary.initialState : EBState :=
  { hasError := false, error := none }

/-- From `ErrorBoundary.jsx`: `static getDerivedStateFromError(error)`
returns `{ hasError: true, error }`. -/
def ErrorBoundary.getDerivedStateFromError (error : String) : EBState :=
  { hasError := true, error := some error }

/-- One record written to the diagnostic sink (the console log). -/
structure LogEntry where
  message : String
  error : String
  errorInfo : String
deriving DecidableEq, Repr

/-- From `ErrorBoundary.jsx`: `componentDidCatch(error, errorInfo)`
logs `"Error caught by boundary:"` with the error and the contextual
trace info. -/
def ErrorBoundary.componentDidCatch (error : String) (errorInfo : String) : LogEntry :=
  { message := "Error caught by boundary:", error := error, errorInfo := errorInfo }

/-- What an ErrorBoundary render pass produces: either the static
fallback notice or the descendants (`this.props.children`). -/
inductive EBOutput where
  | fallback (text : String)
  | children
deriving DecidableEq, Repr

/-- The literal notice text inside the fallback `Alert` in
`ErrorBoundary.jsx`. -/
def ErrorBoundary.fallbackText : String :=
  "Something went wrong. Please try refreshing the page."

/-- From `ErrorBoundary.jsx` `render()`: if `this.state.hasError`,
return the static fallback notice; otherwise return
`this.props.children`. -/
def ErrorBoundary.render (s : EBState) : EBOutput :=
  if s.hasError then EBOutput.fallback ErrorBoundary.fallbackText
  else EBOutput.children

/-- How one render pass of the descendant subtree goes: it either
completes or throws an error (with React's contextual trace info). -/
inductive ChildRender where
  | ok
  | throws (error : String) (errorInfo : String)
deriving DecidableEq, Repr

/-- One render cycle of the boundary, following the React lifecycle in
`ErrorBoundary.jsx`: while the boundary renders the fallback the
descendants are not rendered, so nothing can be thrown at it; while it
renders the children, a throw is intercepted by
`getDerivedStateFromError` (state update) and `componentDidCatch`
(diagnostic log). Returns the next state and the log entries emitted. -/
def ErrorBoundary.step (s : EBState) (c : ChildRender) : EBState × List LogEntry :=
  match ErrorBoundary.render s with
  | EBOutput.fallback _ => (s, [])
  | EBOutput.children =>
    match c with
    | ChildRender.ok => (s, [])
    | ChildRender.throws e info =>
      (ErrorBoundary.getDerivedStateFromError e,
       [ErrorBoundary.componentDidCatch e info])

/-- Iterating render cycles over the lifetime of one mount. -/
def ErrorBoundary.run (s : EBState) : List ChildRender → EBState
  | [] => s
  | c :: cs => ErrorBoundary.run (ErrorBoundary.step s c).1 cs

/-- The render behaviour BookList exhibits to an enclosing boundary for
a given fetch outcome: it throws into the render tree exactly when its
result handling escalates an exception. -/
def BookList.childRender (r : FetchResult) : ChildRender :=
  match BookList.handleResult r with
  | Except.ok _ => ChildRender.ok
  | Except.error e => ChildRender.throws e ""

/-- From `FloatingImages.jsx`: the base sequence of image references,
`Array.from({ length: 13 }, (_, i) => "/pic" + (i+1) + ".jpeg")` —
derived from a numeric range, with no external input. -/
def imageSources : List String :=
  (List.range 13).map fun i => "/pic" ++ toString (i + 1) ++ ".jpeg"

/-- A rendered image element: its `src`, its `alt`, and whether it is
currently displayed (the onError handler sets `display: "none"`). -/
structure Img where
  src : String
  alt : String
  displayed : Bool
deriving DecidableEq, Repr

/-- From `FloatingImages.jsx`: the rendered strip is the base sequence
(alt "Book {i+1}") followed by its one duplicate (alt
"Book {i+1} duplicate"), every element initially displayed. -/
def FloatingImages.render : List Img :=
  (imageSources.mapIdx fun i src =>
    { src := src, alt := "Book " ++ toString (i + 1), displayed := true }) ++
  (imageSources.mapIdx fun i src =>
    { src := src, alt := "Book " ++ toString (i + 1) ++ " duplicate",
      displayed := true })

/-- From the `onError` handler in `FloatingImages.jsx`:
`e.target.style.display = "none"` — a load failure of the element at
position `j` hides exactly that element and touches nothing else. -/
def onErrorHide (imgs : List Img) (j : Nat) : List Img :=
  imgs.mapIdx fun i img =>
    if i = j then { src := img.src, alt := img.alt, displayed := false }
    else img

/-- Helper: a list of cards contains exactly one card per book. -/
theorem countCards_map_card (bs : List Book) :
    countCards (bs.map ListNode.card) = bs.length := by
  induction bs with
  | nil => rfl
  | cons b bs ih =>
    unfold countCards at ih ⊢
    simp only [List.map_cons, List.filter_cons, List.length_cons]
    simpa using ih

/-- Helper: the "View Details" button is always among BookCard's
rendered nodes. -/
theorem viewDetails_mem_renderNodes (book : Book) :
    Node.button "View Details" ∈ BookCard.renderNodes book := by
  unfold BookCard.renderNodes
  cases book.cover_image <;> simp

/-- Helper: the title text is always among BookCard's rendered nodes. -/
theorem title_mem_renderNodes (book : Book) :
    Node.text book.title ∈ BookCard.renderNodes book := by
  unfold BookCard.renderNodes
  cases book.cover_image <;> simp

/-- Helper: a boundary whose state has `hasError` set renders the
fallback, so a render cycle leaves it unchanged and logs nothing. -/
theorem errorBoundary_step_of_hasError (s : EBState) (c : ChildRender)
    (h : s.hasError = true) :
    ErrorBoundary.step s c = (s, []) := by
  unfold ErrorBoundary.step ErrorBoundary.render
  rw [h]
  rfl

/-- C6: for every Book with a non-null cover_image, BookCard renders an
image element whose src equals that cover_image value and whose alt text
equals the Book's title, together with the title and a byline
"by {author}". -/
theorem bookCard_with_cover (book : Book) (url : String)
    (h : book.cover_image = some url) :
    Node.image url book.title ∈ BookCard.renderNodes book ∧
    Node.text book.title ∈ BookCard.renderNodes book ∧
    Node.text ("by " ++ book.author) ∈ BookCard.renderNodes book ∧
    Node.button "View Details" ∈ BookCard.renderNodes book := by
  refine ⟨?_, title_mem_renderNodes book, ?_, viewDetails_mem_renderNodes book⟩ <;>
    (unfold BookCard.renderNodes; rw [h]; simp)

/-- Witness for C6 at the spec's scenario book
`{id := 1, title := "My Book", author := "Author", cover_image := "http://x/c.jpg"}`. -/
theorem bookCard_with_cover_witness :
    Node.image "http://x/c.jpg" "My Book" ∈
      BookCard.renderNodes ⟨1, "My Book", "Author", some "http://x/c.jpg"⟩ ∧
    Node.text "My Book" ∈
      BookCard.renderNodes ⟨1, "My Book", "Author", some "http://x/c.jpg"⟩ ∧
    Node.text ("by " ++ "Author") ∈
      BookCard.renderNodes ⟨1, "My Book", "Author", some "http://x/c.jpg"⟩ ∧
    Node.button "View Details" ∈
      BookCard.renderNodes ⟨1, "My Book", "Author", some "http://x/c.jpg"⟩ :=
  bookCard_with_cover ⟨1, "My Book", "Author", some "http://x/c.jpg"⟩ "http://x/c.jpg" rfl

/-- C7: for every Book with a null/absent cover_image, BookCard renders
the literal placeholder text "No Cover", renders no cover image element,
and the fallback path is selected deterministically (the render is a
total function whose output is fully determined). -/
theorem bookCard_no_cover (book : Book) (h : book.cover_image = none) :
    Node.text "No Cover" ∈ BookCard.renderNodes book ∧
    countImages (BookCard.renderNodes book) = 0 ∧
    BookCard.renderNodes book =
      [Node.text "No Cover", Node.text book.title,
       Node.text ("by " ++ book.author), Node.button "View Details"] := by
  unfold BookCard.renderNodes
  rw [h]
  refine ⟨by simp, ?_, rfl⟩
  unfold countImages
  simp [List.filter]

/-- Witness for C7 at the test's book
`{id := 2, title := "No Cover Book", author := "Anon", cover_image := null}`. -/
theorem bookCard_no_cover_witness :
    Node.text "No Cover" ∈ BookCard.renderNodes ⟨2, "No Cover Book", "Anon", none⟩ ∧
    countImages (BookCard.renderNodes ⟨2, "No Cover Book", "Anon", none⟩) = 0 ∧
    BookCard.renderNodes ⟨2, "No Cover Book", "Anon", none⟩ =
      [Node.text "No Cover", Node.text "No Cover Book",
       Node.text ("by " ++ "Anon"), Node.button "View Details"] :=
  bookCard_no_cover ⟨2, "No Cover Book", "Anon", none⟩ rfl

/-- C8: for every Book and every supplied callback, clicking BookCard's
"View Details" control invokes the supplied callback (exactly once,
synchronously: the click dispatch is precisely one application of the
callback to the current state). -/
theorem bookCard_click_calls_onSelect {σ : Type} (book : Book)
    (onSelect : σ → σ) (s : σ) :
    clickViewDetails (BookCard.render book onSelect) s = onSelect s ∧
    Node.button "View Details" ∈ (BookCard.render book onSelect).nodes :=
  ⟨rfl, viewDetails_mem_renderNodes book⟩

/-- C1: for every non-empty API response, BookList renders exactly one
BookCard per record, in the order received (the rendered sequence is the
record sequence mapped to cards, so each position receives the Book of
that position — in particular the Book whose id matches — and each
card's displayed title, rendered by BookCard, equals that Book's
title). -/
theorem bookList_renders_all_books (books : List Book) (h : books ≠ []) :
    BookList.render (BookList.resolve (FetchResult.success books)) =
      books.map ListNode.card ∧
    (BookList.render (BookList.resolve (FetchResult.success books))).length =
      books.length ∧
    countCards (BookList.render (BookList.resolve (FetchResult.success books))) =
      books.length ∧
    ∀ b ∈ books, Node.text b.title ∈ BookCard.renderNodes b := by
  match books with
  | [] => exact absurd rfl h
  | b :: bs =>
    refine ⟨rfl, ?_, ?_, fun x _ => title_mem_renderNodes x⟩
    · show ((b :: bs).map ListNode.card).length = (b :: bs).length
      simp
    · show countCards ((b :: bs).map ListNode.card) = (b :: bs).length
      exact countCards_map_card (b :: bs)

/-- Witness for C1 at the test's one-record response
`[{id := 1, title := "A Book", author := "Auth"}]`. -/
theorem bookList_renders_all_books_witness :
    ([(⟨1, "A Book", "Auth", none⟩ : Book)] ≠ []) ∧
    (BookList.render (BookList.resolve
        (FetchResult.success [⟨1, "A Book", "Auth", none⟩])) =
      [(⟨1, "A Book", "Auth", none⟩ : Book)].map ListNode.card ∧
    (BookList.render (BookList.resolve
        (FetchResult.success [⟨1, "A Book", "Auth", none⟩]))).length = 1 ∧
    countCards (BookList.render (BookList.resolve
        (FetchResult.success [⟨1, "A Book", "Auth", none⟩]))) = 1 ∧
    ∀ b ∈ [(⟨1, "A Book", "Auth", none⟩ : Book)],
      Node.text b.title ∈ BookCard.renderNodes b) :=
  ⟨by simp, bookList_renders_all_books [⟨1, "A Book", "Auth", none⟩] (by simp)⟩

/-- C2: for the empty API response, BookList renders exactly the literal
text "No books found." and zero BookCard instances. -/
theorem bookList_empty_response :
    BookList.render (BookList.resolve (FetchResult.success [])) =
      [ListNode.text "No books found."] ∧
    countCards (BookList.render (BookList.resolve (FetchResult.success []))) = 0 :=
  ⟨rfl, rfl⟩

/-- C3: every rejected API request is handled locally by BookList: it
transitions to the errored state whose render is a user-visible inline
error indication, the rejection is never escalated as a thrown exception
(`handleResult` never yields `Except.error`, so the child render seen by
an enclosing boundary is non-throwing), and the enclosing ErrorBoundary
is never triggered by it (a render cycle on that child render leaves any
boundary state unchanged and logs nothing). -/
theorem bookList_failure_handled_locally (err : String) :
    BookList.handleResult (FetchResult.failure err) =
      Except.ok FetchState.errored ∧
    BookList.render FetchState.errored =
      [ListNode.errorIndication "Failed to load books."] ∧
    (∀ msg : String,
      BookList.handleResult (FetchResult.failure err) ≠ Except.error msg) ∧
    BookList.childRender (FetchResult.failure err) = ChildRender.ok ∧
    ∀ s : EBState,
      ErrorBoundary.step s (BookList.childRender (FetchResult.failure err)) =
        (s, []) := by
  refine ⟨rfl, rfl, ?_, rfl, ?_⟩
  · intro msg hcontra
    cases hcontra
  · intro s
    show ErrorBoundary.step s ChildRender.ok = (s, [])
    unfold ErrorBoundary.step
    cases hr : ErrorBoundary.render s <;> rfl

/-- C4: whenever a descendant throws during a render pass in which the
boundary shows its children, the boundary moves to the errored state
capturing that error, renders the static fallback notice (not the
descendant's output), and emits the captured error with its contextual
trace info to the diagnostic sink. -/
theorem errorBoundary_catches_descendant_throw (s : EBState)
    (e info : String) (h : s.hasError = false) :
    (ErrorBoundary.step s (ChildRender.throws e info)).1 =
      { hasError := true, error := some e } ∧
    ErrorBoundary.render (ErrorBoundary.step s (ChildRender.throws e info)).1 =
      EBOutput.fallback ErrorBoundary.fallbackText ∧
    ErrorBoundary.render (ErrorBoundary.step s (ChildRender.throws e info)).1 ≠
      EBOutput.children ∧
    (ErrorBoundary.step s (ChildRender.throws e info)).2 =
      [{ message := "Error caught by boundary:", error := e, errorInfo := info }] := by
  have hstep : ErrorBoundary.step s (ChildRender.throws e info) =
      (ErrorBoundary.getDerivedStateFromError e,
       [ErrorBoundary.componentDidCatch e info]) := by
    unfold ErrorBoundary.step ErrorBoundary.render
    rw [h]
    rfl
  rw [hstep]
  refine ⟨rfl, rfl, ?_, rfl⟩
  intro hcontra
  simp [ErrorBoundary.render, ErrorBoundary.getDerivedStateFromError] at hcontra

/-- Witness for C4 at the fresh boundary state and a concrete thrown
error. -/
theorem errorBoundary_catches_descendant_throw_witness :
    ErrorBoundary.initialState.hasError = false ∧
    ((ErrorBoundary.step ErrorBoundary.initialState
        (ChildRender.throws "boom" "at App > BookList")).1 =
      { hasError := true, error := some "boom" } ∧
    ErrorBoundary.render (ErrorBoundary.step ErrorBoundary.initialState
        (ChildRender.throws "boom" "at App > BookList")).1 =
      EBOutput.fallback ErrorBoundary.fallbackText ∧
    ErrorBoundary.render (ErrorBoundary.step ErrorBoundary.initialState
        (ChildRender.throws "boom" "at App > BookList")).1 ≠
      EBOutput.children ∧
    (ErrorBoundary.step ErrorBoundary.initialState
        (ChildRender.throws "boom" "at App > BookList")).2 =
      [{ message := "Error caught by boundary:", error := "boom",
         errorInfo := "at App > BookList" }]) :=
  ⟨rfl, errorBoundary_catches_descendant_throw ErrorBoundary.initialState
    "boom" "at App > BookList" rfl⟩

/-- C5: ErrorBoundary is a two-state machine starting with
`hasError = false`; once `hasError` is set it is terminal for the mount:
every sequence of further render cycles leaves the state unchanged (so
`hasError` stays set), and while errored the render is the static
fallback notice, never the descendants. -/
theorem errorBoundary_errored_terminal (s : EBState) (cs : List ChildRender)
    (h : s.hasError = true) :
    ErrorBoundary.initialState.hasError = false ∧
    ErrorBoundary.run s cs = s ∧
    (ErrorBoundary.run s cs).hasError = true ∧
    ErrorBoundary.render s = EBOutput.fallback ErrorBoundary.fallbackText ∧
    ErrorBoundary.render s ≠ EBOutput.children := by
  have hrun : ErrorBoundary.run s cs = s := by
    induction cs with
    | nil => rfl
    | cons c cs ih =>
      unfold ErrorBoundary.run
      rw [errorBoundary_step_of_hasError s c h]
      exact ih
  have hrender : ErrorBoundary.render s =
      EBOutput.fallback ErrorBoundary.fallbackText := by
    simp [ErrorBoundary.render, h]
  refine ⟨rfl, hrun, by rw [hrun, h], hrender, ?_⟩
  rw [hrender]
  intro hcontra
  cases hcontra

/-- Witness for C5 at a concrete errored state and a concrete sequence
of later render cycles. -/
theorem errorBoundary_errored_terminal_witness :
    (⟨true, some "boom"⟩ : EBState).hasError = true ∧
    (ErrorBoundary.initialState.hasError = false ∧
    ErrorBoundary.run ⟨true, some "boom"⟩
        [ChildRender.ok, ChildRender.throws "x" "y"] = ⟨true, some "boom"⟩ ∧
    (ErrorBoundary.run ⟨true, some "boom"⟩
        [ChildRender.ok, ChildRender.throws "x" "y"]).hasError = true ∧
    ErrorBoundary.render ⟨true, some "boom"⟩ =
      EBOutput.fallback ErrorBoundary.fallbackText ∧
    ErrorBoundary.render ⟨true, some "boom"⟩ ≠ EBOutput.children) :=
  ⟨rfl, errorBoundary_errored_terminal ⟨true, some "boom"⟩
    [ChildRender.ok, ChildRender.throws "x" "y"] rfl⟩

/-- C10: for every pair of captured error values, the errored-state
render output of ErrorBoundary is identical: the fixed notice
"Something went wrong. Please try refreshing the page.", independent of
the captured error value. -/
theorem errorBoundary_render_error_independent (e1 e2 : String) :
    ErrorBoundary.render (ErrorBoundary.getDerivedStateFromError e1) =
      ErrorBoundary.render (ErrorBoundary.getDerivedStateFromError e2) ∧
    ErrorBoundary.render (ErrorBoundary.getDerivedStateFromError e1) =
      EBOutput.fallback "Something went wrong. Please try refreshing the page." :=
  ⟨rfl, rfl⟩

set_option maxRecDepth 4000

/-- C9: FloatingImages derives its image references from a numeric
range with no external input (13 sources), the full rendered sequence of
image sources is the base sequence concatenated with itself exactly once
(rendered sources = base ++ base), and a load failure at any position
hides only that single element: the length and every source are
unchanged, the failed element is no longer displayed, and every sibling
element is exactly as before. -/
theorem floatingImages_duplication_and_failure_isolation (j : Nat)
    (h : j < FloatingImages.render.length) :
    imageSources.length = 13 ∧
    FloatingImages.render.map Img.src = imageSources ++ imageSources ∧
    (onErrorHide FloatingImages.render j).length =
      FloatingImages.render.length ∧
    (onErrorHide FloatingImages.render j).map Img.src =
      FloatingImages.render.map Img.src ∧
    ((onErrorHide FloatingImages.render j)[j]?).map Img.displayed =
      some false ∧
    ∀ i, i < FloatingImages.render.length → i ≠ j →
      (onErrorHide FloatingImages.render j)[i]? =
        FloatingImages.render[i]? := by
  revert j
  decide

/-- Witness for C9 at a load failure of the first image element. -/
theorem floatingImages_duplication_and_failure_isolation_witness :
    0 < FloatingImages.render.length ∧
    (imageSources.length = 13 ∧
    FloatingImages.render.map Img.src = imageSources ++ imageSources ∧
    (onErrorHide FloatingImages.render 0).length =
      FloatingImages.render.length ∧
    (onErrorHide FloatingImages.render 0).map Img.src =
      FloatingImages.render.map Img.src ∧
    ((onErrorHide FloatingImages.render 0)[0]?).map Img.displayed =
      some false ∧
    ∀ i, i < FloatingImages.render.length → i ≠ 0 →
      (onErrorHide FloatingImages.render 0)[i]? =
        FloatingImages.render[i]?) :=
  ⟨by decide, floatingImages_duplication_and_failure_isolation 0 (by decide)⟩
